import Mathlib

/-!
Shallow embedding of the client controller `GitHubConnect`
(frontend/src/components/GitHubConnect.tsx) of the github-repo-connection-demo
repository, together with theorems settling the specification claims about it.

JavaScript `Record<string, T>` objects are modelled as association lists with
`lookupAssoc` / `insertAssoc` / `eraseAssoc`; the `Set<string>` selection is a
`Finset String`; nullable values are `Option`; HTTP interactions are modelled
by passing the responses the code would receive as explicit arguments and by
returning the list of requests the code issues.
-/

set_option linter.unusedVariables false

/-- `GitHubUser` interface of the source. -/
structure GitHubUser where
  id : String
  login : String
  name : Option String
  avatar_url : String
deriving Repr, DecidableEq

/-- `clone_status` object shape shared by `Repository` and `AnalyzeResult`. -/
structure CloneStatus where
  success : Bool
  path : Option String
  cached : Option Bool
  error : Option String
deriving Repr, DecidableEq

/-- `dbt_project` object shape shared by `Repository` and `AnalyzeResult`. -/
structure DbtProject where
  found : Bool
  path : Option String
  depth : Option Nat
  relative_path : Option String
deriving Repr, DecidableEq

/-- `Repository` interface of the source (`private` renamed `is_private`,
a reserved word in Lean). -/
structure Repository where
  id : Nat
  name : String
  full_name : String
  description : Option String
  html_url : String
  is_private : Bool
  language : Option String
  stargazers_count : Nat
  updated_at : String
  clone_status : Option CloneStatus
  dbt_project : Option DbtProject
deriving Repr, DecidableEq

/-- `AnalyzeResult` interface of the source. -/
structure AnalyzeResult where
  full_name : String
  owner : String
  repo : String
  clone_status : CloneStatus
  dbt_project : Option DbtProject
deriving Repr, DecidableEq

/-- `StoredUserData` interface of the source (localStorage key
`github_user_data`). -/
structure StoredUserData where
  user : GitHubUser
  installationId : Option Nat
deriving Repr, DecidableEq

/-- `StoredAnalysisData` interface of the source (localStorage key
`github_analysis_data`). -/
structure StoredAnalysisData where
  analyzeResults : List AnalyzeResult
  dbtPaths : List (String × String)
  originalPaths : List (String × String)
  pathValidation : List (String × Option Bool)
deriving Repr, DecidableEq

/-- The localStorage keys the component reads and writes. -/
structure LocalStorage where
  oauth_state : Option String
  pending_installation_id : Option String
  github_user_data : Option StoredUserData
  github_analysis_data : Option StoredAnalysisData
deriving Repr, DecidableEq

/-- Association-list lookup, modelling `record[key]` on a JS object. -/
def lookupAssoc {α : Type} (m : List (String × α)) (k : String) : Option α :=
  match m with
  | [] => none
  | (k', v) :: rest => if k' = k then some v else lookupAssoc rest k

/-- Removing a key, modelling `const \x7b [k]: _, ...rest \x7d = prev; rest`. -/
def eraseAssoc {α : Type} (m : List (String × α)) (k : String) : List (String × α) :=
  m.filter (fun p => p.1 ≠ k)

/-- Functional update, modelling the spread `\x7b ...prev, [k]: v \x7d`. -/
def insertAssoc {α : Type} (m : List (String × α)) (k : String) (v : α) : List (String × α) :=
  (k, v) :: eraseAssoc m k

theorem lookupAssoc_insert_self {α : Type} (m : List (String × α)) (k : String) (v : α) :
    lookupAssoc (insertAssoc m k v) k = some v := by
  simp [insertAssoc, lookupAssoc]

theorem lookupAssoc_erase_self {α : Type} (m : List (String × α)) (k : String) :
    lookupAssoc (eraseAssoc m k) k = none := by
  induction m with
  | nil => rfl
  | cons p rest ih =>
    by_cases hp : p.1 = k
    · simpa [eraseAssoc, List.filter_cons, hp] using ih
    · simpa [eraseAssoc, List.filter_cons, hp, lookupAssoc] using ih

theorem lookupAssoc_erase_ne {α : Type} (m : List (String × α)) (k k' : String)
    (h : k ≠ k') : lookupAssoc (eraseAssoc m k) k' = lookupAssoc m k' := by
  induction m with
  | nil => rfl
  | cons p rest ih =>
    by_cases hp : p.1 = k
    · have hpk : ¬ p.1 = k' := by rw [hp]; exact h
      simpa [eraseAssoc, List.filter_cons, hp, lookupAssoc, hpk, h] using ih
    · by_cases hpk : p.1 = k'
      · simp [eraseAssoc, List.filter_cons, hp, lookupAssoc, hpk, Ne.symm h]
      · simpa [eraseAssoc, List.filter_cons, hp, lookupAssoc, hpk] using ih

theorem lookupAssoc_insert_ne {α : Type} (m : List (String × α)) (k k' : String) (v : α)
    (h : k ≠ k') : lookupAssoc (insertAssoc m k v) k' = lookupAssoc m k' := by
  simp [insertAssoc, lookupAssoc, h, lookupAssoc_erase_ne m k k' h]

/-- The component's mutable state: one field per `useState` / `useRef` holding
data (loading flags included; rendering-only state `searchFilter` kept for
completeness). `debounceTimers` maps a repository key to the scheduled firing
time and the path captured by the scheduled `validateDbtPath` closure. -/
structure CompState where
  user : Option GitHubUser
  installationId : Option Nat
  repos : List Repository
  loading : Bool
  error : Option String
  requiresSelection : Bool
  selectedRepos : Finset String
  analyzeResults : Option (List AnalyzeResult)
  analyzing : Bool
  searchFilter : String
  dbtPaths : List (String × String)
  originalPaths : List (String × String)
  pathValidation : List (String × Option Bool)
  validatingPaths : List (String × Bool)
  debounceTimers : List (String × (Nat × String))
deriving DecidableEq

/-- The initial state of every `useState` hook. -/
def initialState : CompState :=
  { user := none
    installationId := none
    repos := []
    loading := false
    error := none
    requiresSelection := false
    selectedRepos := ∅
    analyzeResults := none
    analyzing := false
    searchFilter := ""
    dbtPaths := []
    originalPaths := []
    pathValidation := []
    validatingPaths := []
    debounceTimers := [] }

/-- `const MAX_SELECTION = 5`. -/
def MAX_SELECTION : Nat := 5

/-- `toggleRepoSelection`: delete a member; otherwise add only below
`MAX_SELECTION`; otherwise leave the set unchanged. -/
def toggleRepoSelection (prev : Finset String) (fullName : String) : Finset String :=
  if fullName ∈ prev then prev.erase fullName
  else if prev.card < MAX_SELECTION then insert fullName prev
  else prev

theorem toggleRepoSelection_card_le (s : Finset String) (x : String)
    (h : s.card ≤ MAX_SELECTION) : (toggleRepoSelection s x).card ≤ MAX_SELECTION := by
  unfold toggleRepoSelection
  by_cases hx : x ∈ s
  · simp only [hx, if_true]
    exact le_trans (Finset.card_erase_le) h
  · simp only [hx, if_false]
    by_cases hc : s.card < MAX_SELECTION
    · simp only [hc, if_true]
      exact le_trans (Finset.card_insert_le x s) hc
    · simp only [hc, if_false]; exact h

theorem toggleRepoSelection_foldl_card_le (ops : List String) (s : Finset String)
    (h : s.card ≤ MAX_SELECTION) :
    (ops.foldl toggleRepoSelection s).card ≤ MAX_SELECTION := by
  induction ops generalizing s with
  | nil => simpa using h
  | cons x rest ih =>
    simp only [List.foldl_cons]
    exact ih _ (toggleRepoSelection_card_le s x h)

/-- C4: from the empty selection, any sequence of toggles keeps the selection
size at most `MAX_SELECTION` (= 5); toggling a member removes it; toggling a
non-member strictly below capacity inserts it; toggling a non-member at
capacity is the identity (a no-op, not an error). -/
theorem c4_toggle_selection_invariant :
    (∀ ops : List String, ((ops.foldl toggleRepoSelection ∅).card ≤ MAX_SELECTION))
    ∧ (∀ (s : Finset String) (x : String), x ∈ s →
        toggleRepoSelection s x = s.erase x)
    ∧ (∀ (s : Finset String) (x : String), x ∉ s → s.card < MAX_SELECTION →
        toggleRepoSelection s x = insert x s)
    ∧ (∀ (s : Finset String) (x : String), x ∉ s → MAX_SELECTION ≤ s.card →
        toggleRepoSelection s x = s) := by
  refine ⟨?_, ?_, ?_, ?_⟩
  · intro ops
    exact toggleRepoSelection_foldl_card_le ops ∅ (by simp)
  · intro s x hx
    simp [toggleRepoSelection, hx]
  · intro s x hx hc
    simp [toggleRepoSelection, hx, hc]
  · intro s x hx hc
    simp [toggleRepoSelection, hx, Nat.not_lt.mpr hc]

/-- Witness for C4 at concrete inputs: a sequence of six distinct toggles stays
at size ≤ 5, removal of a member, insertion below capacity, and a no-op toggle
of a non-member at capacity. -/
theorem c4_toggle_selection_invariant_witness :
    ((["a", "b", "c", "d", "e", "f"].foldl toggleRepoSelection ∅).card ≤ MAX_SELECTION)
    ∧ toggleRepoSelection {"a"} "a" = ({"a"} : Finset String).erase "a"
    ∧ toggleRepoSelection {"a"} "b" = insert "b" ({"a"} : Finset String)
    ∧ toggleRepoSelection {"a", "b", "c", "d", "e"} "f" = {"a", "b", "c", "d", "e"} :=
  ⟨c4_toggle_selection_invariant.1 _,
   c4_toggle_selection_invariant.2.1 _ "a" (by decide),
   c4_toggle_selection_invariant.2.2.1 _ "b" (by decide) (by decide),
   c4_toggle_selection_invariant.2.2.2 _ "f" (by decide) (by decide)⟩

/-- `response.ok` of the Fetch API: status in the 200-299 range. -/
def respOk (status : Nat) : Bool := decide (200 ≤ status ∧ status < 300)

/-- Body of `GET /github/repos` (success fields plus the `detail` field an
error body would carry). -/
structure ReposResponseBody where
  requires_selection : Bool
  max_selection : Option Nat
  repos : List Repository
  detail : Option String
deriving Repr, DecidableEq

/-- Body of `POST /github/repos/analyze`. -/
structure AnalyzeResponseBody where
  results : List AnalyzeResult
  detail : Option String
deriving Repr, DecidableEq

/-- An HTTP response: status code and body. -/
structure HttpResp (β : Type) where
  status : Nat
  body : β
deriving Repr, DecidableEq

/-- The network environment one `fetchRepos` call can consume: the first
response, the restore outcome (`none` = the restore fetch threw, `some b` =
`\x7b success: b \x7d`), and the response to the retry (consumed only when the
retry happens). -/
structure FetchEnv (β : Type) where
  resp1 : HttpResp β
  restoreResult : Option Bool
  resp2 : HttpResp β
deriving Repr, DecidableEq

/-- Counts of the backend requests a call performed. -/
structure NetTrace where
  requestCount : Nat
  restoreCount : Nat
  retryCount : Nat
deriving Repr, DecidableEq

/-- `r.full_name.split('/')[0]`. -/
def fullNameOwner (fullName : String) : String :=
  (fullName.splitOn "/").headD ""

/-- The `Repository → AnalyzeResult` mapping used when repos arrive
pre-analyzed (`requires_selection` false). -/
def repoToResult (r : Repository) : AnalyzeResult :=
  { full_name := r.full_name
    owner := fullNameOwner r.full_name
    repo := r.name
    clone_status := r.clone_status.getD { success := false, path := none, cached := none, error := none }
    dbt_project := r.dbt_project }

/-- `analyzeResults?.map(r => r.full_name) || []`. -/
def existingFullNames (st : CompState) : List String :=
  ((st.analyzeResults.map (fun rs => rs.map AnalyzeResult.full_name)).getD [])

/-- Processing of a `GET /github/repos` response after the 401 check: the
error path (`!response.ok`) and the two success branches, including the
`finally setLoading(false)`. -/
def processReposResponse (st : CompState) (resp : HttpResp ReposResponseBody) : CompState :=
  if respOk resp.status = false then
    { st with error := some (resp.body.detail.getD "Failed to fetch repositories")
              loading := false }
  else
    let st1 := { st with repos := resp.body.repos
                         requiresSelection := resp.body.requires_selection }
    if resp.body.requires_selection then
      { st1 with selectedRepos := (existingFullNames st1).toFinset, loading := false }
    else
      { st1 with analyzeResults := some (resp.body.repos.map repoToResult), loading := false }

/-- `fetchRepos(retryAfterRestore = true)`: guard on `user`, set
loading/error, 401-with-installation handling (one restore attempt, one retry
via `fetchRepos(false)` when the restore succeeds), then response processing.
Returns the new state and the request counts. -/
def fetchRepos (st : CompState) (env : FetchEnv ReposResponseBody) : CompState × NetTrace :=
  if st.user.isNone then (st, ⟨0, 0, 0⟩)
  else
    let st1 : CompState := { st with loading := true, error := none }
    if env.resp1.status = 401 ∧ st1.installationId.isSome then
      match env.restoreResult with
      | some true => (processReposResponse st1 env.resp2, ⟨2, 1, 1⟩)
      | some false => (processReposResponse st1 env.resp1, ⟨1, 1, 0⟩)
      | none => (processReposResponse st1 env.resp1, ⟨1, 1, 0⟩)
    else (processReposResponse st1 env.resp1, ⟨1, 0, 0⟩)

/-- Processing of a `POST /github/repos/analyze` response after the 401
check, including the `finally setAnalyzing(false)`. -/
def processAnalyzeResponse (st : CompState) (resp : HttpResp AnalyzeResponseBody) : CompState :=
  if respOk resp.status = false then
    { st with error := some (resp.body.detail.getD "Failed to analyze repositories")
              analyzing := false }
  else
    { st with analyzeResults := some resp.body.results
              requiresSelection := false
              analyzing := false }

/-- `analyzeSelected(retryAfterRestore = true)`: guard on `user` and a
non-empty selection, then the same one-shot 401 restore-and-retry policy as
`fetchRepos`, then response processing. -/
def analyzeSelected (st : CompState) (env : FetchEnv AnalyzeResponseBody) : CompState × NetTrace :=
  if st.user.isNone ∨ st.selectedRepos.card = 0 then (st, ⟨0, 0, 0⟩)
  else
    let st1 : CompState := { st with analyzing := true, error := none }
    if env.resp1.status = 401 ∧ st1.installationId.isSome then
      match env.restoreResult with
      | some true => (processAnalyzeResponse st1 env.resp2, ⟨2, 1, 1⟩)
      | some false => (processAnalyzeResponse st1 env.resp1, ⟨1, 1, 0⟩)
      | none => (processAnalyzeResponse st1 env.resp1, ⟨1, 1, 0⟩)
    else (processAnalyzeResponse st1 env.resp1, ⟨1, 0, 0⟩)

/-- Concrete user fixture. -/
def alice : GitHubUser := { id := "1", login := "alice", name := none, avatar_url := "" }

/-- A successful clone status fixture. -/
def okClone : CloneStatus := { success := true, path := none, cached := none, error := none }

/-- Analysis result fixture for repository `a/x`. -/
def resAX : AnalyzeResult :=
  { full_name := "a/x", owner := "a", repo := "x", clone_status := okClone, dbt_project := none }

/-- Analysis result fixture for repository `b/y`. -/
def resBY : AnalyzeResult :=
  { full_name := "b/y", owner := "b", repo := "y", clone_status := okClone, dbt_project := none }

/-- C10: whenever a `fetchRepos` response is OK and carries
`requires_selection: true`, the selection set is reset to exactly the
full_names of the currently retained analysis results (empty when none are
retained), discarding whatever selection had been accumulated before. -/
theorem c10_fetch_resets_selection_to_retained (st : CompState)
    (env : FetchEnv ReposResponseBody)
    (hu : st.user.isSome) (hok : respOk env.resp1.status = true)
    (hrs : env.resp1.body.requires_selection = true) :
    (fetchRepos st env).1.selectedRepos = (existingFullNames st).toFinset := by
  have hne : ¬ env.resp1.status = 401 := by
    intro h; rw [h] at hok; simp [respOk] at hok
  obtain ⟨u, hux⟩ := Option.isSome_iff_exists.mp hu
  simp [fetchRepos, hux, hne, processReposResponse, hok, hrs, existingFullNames]

/-- Fixture state for C10: a retained result for `a/x` and a stale user
selection `z/w`. -/
def c10St : CompState :=
  { initialState with
    user := some alice
    installationId := some 42
    analyzeResults := some [resAX]
    selectedRepos := {"z/w"} }

/-- Fixture environment for C10: an OK response requiring selection. -/
def c10Env : FetchEnv ReposResponseBody :=
  { resp1 := { status := 200,
               body := { requires_selection := true, max_selection := some 5,
                         repos := [], detail := none } }
    restoreResult := none
    resp2 := { status := 200,
               body := { requires_selection := true, max_selection := some 5,
                         repos := [], detail := none } } }

/-- Witness for C10 at the concrete fixture: the stale selection `z/w` is
replaced by the retained result key `a/x`. -/
theorem c10_fetch_resets_selection_to_retained_witness :
    (fetchRepos c10St c10Env).1.selectedRepos = (existingFullNames c10St).toFinset :=
  c10_fetch_resets_selection_to_retained c10St c10Env (by decide) (by decide) (by decide)

/-- Fixture state for C2: result `a/x` retained, selection is exactly
`b/y` — so `a/x` is outside the analyzed batch. -/
def c2St : CompState :=
  { initialState with
    user := some alice
    installationId := some 42
    analyzeResults := some [resAX]
    requiresSelection := true
    selectedRepos := {"b/y"} }

/-- Fixture environment for C2: a successful analyze response for the batch
`[b/y]`. -/
def c2Env : FetchEnv AnalyzeResponseBody :=
  { resp1 := { status := 200, body := { results := [resBY], detail := none } }
    restoreResult := none
    resp2 := { status := 200, body := { results := [], detail := none } } }

/-- C2 counterexample: before the call, `a/x` is retained and is not in the
analyzed batch, yet after the successful `analyzeSelected` call the analysis
set is `[b/y]` alone — the previously retained `a/x` result was discarded,
not merged as the claim states. -/
theorem c2_analyze_discards_counterexample :
    c2St.analyzeResults = some [resAX]
    ∧ "a/x" ∉ c2St.selectedRepos
    ∧ (analyzeSelected c2St c2Env).1.analyzeResults = some [resBY]
    ∧ resAX ∉ [resBY] := by decide

/-- C2 amended: on a successful `analyzeSelected` call, `requires_selection`
becomes false and the analysis set is replaced by exactly the returned
`AnalysisResult` list; previously retained results for repositories outside
the batch are discarded, not merged. -/
theorem c2_analyze_replaces_results (st : CompState) (env : FetchEnv AnalyzeResponseBody)
    (hu : st.user.isSome) (hsel : st.selectedRepos.card ≠ 0)
    (hok : respOk env.resp1.status = true) :
    (analyzeSelected st env).1.analyzeResults = some env.resp1.body.results
    ∧ (analyzeSelected st env).1.requiresSelection = false := by
  have hne : ¬ env.resp1.status = 401 := by
    intro h; rw [h] at hok; simp [respOk] at hok
  obtain ⟨u, hux⟩ := Option.isSome_iff_exists.mp hu
  simp [analyzeSelected, hux, hne, hsel, processAnalyzeResponse, hok]

/-- Witness for the amended C2 at the concrete fixture. -/
theorem c2_analyze_replaces_results_witness :
    (analyzeSelected c2St c2Env).1.analyzeResults = some c2Env.resp1.body.results
    ∧ (analyzeSelected c2St c2Env).1.requiresSelection = false :=
  c2_analyze_replaces_results c2St c2Env (by decide) (by decide) (by decide)

/-- Fixture state for the C6 counterexample. -/
def c6St : CompState :=
  { initialState with user := some alice, installationId := some 42 }

/-- Fixture environment for the C6 counterexample: first fetch answers 401,
the restore attempt reports failure. -/
def c6Env : FetchEnv ReposResponseBody :=
  { resp1 := { status := 401,
               body := { requires_selection := false, max_selection := none,
                         repos := [], detail := some "Invalid token" } }
    restoreResult := some false
    resp2 := { status := 200,
               body := { requires_selection := false, max_selection := none,
                         repos := [], detail := none } } }

/-- C6 counterexample: a `fetchRepos` call that receives 401 with a known
installation id performs the single restore attempt, but because the restore
reports failure the fetch is never retried — the retry count is 0, not the
"exactly one retry" the claim demands; the error is surfaced instead. -/
theorem c6_no_retry_when_restore_fails_counterexample :
    (fetchRepos c6St c6Env).2 = ⟨1, 1, 0⟩
    ∧ (fetchRepos c6St c6Env).1.error = some "Invalid token" := by decide

/-- C6 amended: on a 401 with a known installation id, both `fetchRepos` and
`analyzeSelected` perform exactly one restore attempt; the request is retried
exactly once if and only if the restore succeeds (never after a failed or
thrown restore); and when the retry itself fails the error is surfaced with
no further restore or retry. -/
theorem c6_one_shot_restore_retry (st : CompState)
    (envF : FetchEnv ReposResponseBody) (envA : FetchEnv AnalyzeResponseBody)
    (hu : st.user.isSome) (hsel : st.selectedRepos.card ≠ 0)
    (hF : envF.resp1.status = 401) (hA : envA.resp1.status = 401)
    (hinst : st.installationId.isSome) :
    ((fetchRepos st envF).2.restoreCount = 1
      ∧ (fetchRepos st envF).2.retryCount = (if envF.restoreResult = some true then 1 else 0)
      ∧ ((envF.restoreResult = some true) → respOk envF.resp2.status = false →
          (fetchRepos st envF).1.error.isSome))
    ∧ ((analyzeSelected st envA).2.restoreCount = 1
      ∧ (analyzeSelected st envA).2.retryCount = (if envA.restoreResult = some true then 1 else 0)
      ∧ ((envA.restoreResult = some true) → respOk envA.resp2.status = false →
          (analyzeSelected st envA).1.error.isSome)) := by
  obtain ⟨u, hux⟩ := Option.isSome_iff_exists.mp hu
  constructor
  · rcases henv : envF.restoreResult with _ | b
    · simp [fetchRepos, hux, hF, hinst, henv]
    · rcases b with _ | _
      · simp [fetchRepos, hux, hF, hinst, henv]
      · refine ⟨?_, ?_, ?_⟩
        · simp [fetchRepos, hux, hF, hinst, henv]
        · simp [fetchRepos, hux, hF, hinst, henv]
        · intro _ hbad
          simp [fetchRepos, hux, hF, hinst, henv, processReposResponse, hbad]
  · rcases henv : envA.restoreResult with _ | b
    · simp [analyzeSelected, hux, hF, hA, hsel, hinst, henv]
    · rcases b with _ | _
      · simp [analyzeSelected, hux, hF, hA, hsel, hinst, henv]
      · refine ⟨?_, ?_, ?_⟩
        · simp [analyzeSelected, hux, hA, hsel, hinst, henv]
        · simp [analyzeSelected, hux, hA, hsel, hinst, henv]
        · intro _ hbad
          simp [analyzeSelected, hux, hA, hsel, hinst, henv, processAnalyzeResponse, hbad]

/-- Fixture state for the C6 witness: user, installation id and a non-empty
selection. -/
def c6wSt : CompState :=
  { initialState with
    user := some alice
    installationId := some 42
    selectedRepos := {"b/y"} }

/-- Fixture fetch environment for the C6 witness: 401, successful restore,
second 401 on the retry. -/
def c6wEnvF : FetchEnv ReposResponseBody :=
  { resp1 := { status := 401,
               body := { requires_selection := false, max_selection := none,
                         repos := [], detail := some "Bad credentials" } }
    restoreResult := some true
    resp2 := { status := 401,
               body := { requires_selection := false, max_selection := none,
                         repos := [], detail := some "Bad credentials" } } }

/-- Fixture analyze environment for the C6 witness. -/
def c6wEnvA : FetchEnv AnalyzeResponseBody :=
  { resp1 := { status := 401, body := { results := [], detail := some "Bad credentials" } }
    restoreResult := some true
    resp2 := { status := 401, body := { results := [], detail := some "Bad credentials" } } }

/-- Witness for the amended C6 at the concrete fixtures: one restore, one
retry, and a surfaced error after the second 401. -/
theorem c6_one_shot_restore_retry_witness :
    ((fetchRepos c6wSt c6wEnvF).2.restoreCount = 1
      ∧ (fetchRepos c6wSt c6wEnvF).2.retryCount = (if c6wEnvF.restoreResult = some true then 1 else 0)
      ∧ ((c6wEnvF.restoreResult = some true) → respOk c6wEnvF.resp2.status = false →
          (fetchRepos c6wSt c6wEnvF).1.error.isSome))
    ∧ ((analyzeSelected c6wSt c6wEnvA).2.restoreCount = 1
      ∧ (analyzeSelected c6wSt c6wEnvA).2.retryCount = (if c6wEnvA.restoreResult = some true then 1 else 0)
      ∧ ((c6wEnvA.restoreResult = some true) → respOk c6wEnvA.resp2.status = false →
          (analyzeSelected c6wSt c6wEnvA).1.error.isSome)) :=
  c6_one_shot_restore_retry c6wSt c6wEnvF c6wEnvA (by decide) (by decide)
    (by decide) (by decide) (by decide)

/-- The persist-analysis effect: the record written to the localStorage key
`github_analysis_data`, or `none` when the guard
`analyzeResults && analyzeResults.length > 0` blocks the write. -/
def persistAnalysisEffect (st : CompState) : Option StoredAnalysisData :=
  match st.analyzeResults with
  | some rs =>
    if rs.length > 0 then
      some { analyzeResults := rs
             dbtPaths := st.dbtPaths
             originalPaths := st.originalPaths
             pathValidation := st.pathValidation }
    else none
  | none => none

/-- Hydration of a stored analysis record inside `restoreSession`: the four
`set...` calls on lines 137-140 of the source. -/
def hydrateAnalysis (st : CompState) (d : StoredAnalysisData) : CompState :=
  { st with analyzeResults := some d.analyzeResults
            dbtPaths := d.dbtPaths
            originalPaths := d.originalPaths
            pathValidation := d.pathValidation }

/-- C3: with a non-empty result list, persisting writes exactly the four
fields and hydrating the written record into any state reproduces them with
no loss or alteration; with an empty (or absent) result list nothing is ever
written. -/
theorem c3_persist_hydrate_roundtrip :
    (∀ (st fresh : CompState) (rs : List AnalyzeResult),
      st.analyzeResults = some rs → rs ≠ [] →
      ∃ d, persistAnalysisEffect st = some d
        ∧ (hydrateAnalysis fresh d).analyzeResults = st.analyzeResults
        ∧ (hydrateAnalysis fresh d).dbtPaths = st.dbtPaths
        ∧ (hydrateAnalysis fresh d).originalPaths = st.originalPaths
        ∧ (hydrateAnalysis fresh d).pathValidation = st.pathValidation)
    ∧ (∀ st : CompState, st.analyzeResults = none ∨ st.analyzeResults = some [] →
        persistAnalysisEffect st = none) := by
  constructor
  · intro st fresh rs h hne
    have hlen : rs.length > 0 := List.length_pos.mpr hne
    refine ⟨{ analyzeResults := rs
              dbtPaths := st.dbtPaths
              originalPaths := st.originalPaths
              pathValidation := st.pathValidation }, ?_, ?_, rfl, rfl, rfl⟩
    · simp [persistAnalysisEffect, h, hlen]
    · simp [hydrateAnalysis, h]
  · intro st h
    rcases h with h | h <;> simp [persistAnalysisEffect, h]

/-- Fixture state for C3: one analyzed repository with path state. -/
def c3St : CompState :=
  { initialState with
    user := some alice
    analyzeResults := some [resAX]
    dbtPaths := [("a/x", "models")]
    originalPaths := [("a/x", "")]
    pathValidation := [("a/x", some true)] }

/-- Witness for C3 at the concrete fixture: the round trip reproduces the
non-empty view, and the initial (empty) state is never persisted. -/
theorem c3_persist_hydrate_roundtrip_witness :
    (∃ d, persistAnalysisEffect c3St = some d
      ∧ (hydrateAnalysis initialState d).analyzeResults = c3St.analyzeResults
      ∧ (hydrateAnalysis initialState d).dbtPaths = c3St.dbtPaths
      ∧ (hydrateAnalysis initialState d).originalPaths = c3St.originalPaths
      ∧ (hydrateAnalysis initialState d).pathValidation = c3St.pathValidation)
    ∧ persistAnalysisEffect initialState = none :=
  ⟨c3_persist_hydrate_roundtrip.1 c3St initialState [resAX] rfl (by decide),
   c3_persist_hydrate_roundtrip.2 initialState (Or.inl rfl)⟩

/-- `handleRemoveRepo`: drop the result with this full_name (reverting to the
no-analysis view when nothing remains) and delete the three associated path
entries. -/
def handleRemoveRepo (st : CompState) (fullName : String) : CompState :=
  { st with
    analyzeResults :=
      match st.analyzeResults with
      | none => none
      | some prev =>
        let updated := prev.filter (fun r => r.full_name != fullName)
        if updated.length > 0 then some updated else none
    dbtPaths := eraseAssoc st.dbtPaths fullName
    originalPaths := eraseAssoc st.originalPaths fullName
    pathValidation := eraseAssoc st.pathValidation fullName }

/-- C9: removal deletes the AnalysisResult and all three associated path
entries atomically; every other key's entries are untouched; emptying the
result list reverts to the no-analysis-yet view; and after any fresh
successful fetch (auto-analyzed) or analyze response the retained results all
come from that response, so a removed entry only reappears if the response
carries it. -/
theorem c9_remove_repo_atomic :
    (∀ (st : CompState) (fn : String),
       lookupAssoc (handleRemoveRepo st fn).dbtPaths fn = none
       ∧ lookupAssoc (handleRemoveRepo st fn).originalPaths fn = none
       ∧ lookupAssoc (handleRemoveRepo st fn).pathValidation fn = none
       ∧ (∀ r ∈ ((handleRemoveRepo st fn).analyzeResults.getD []), r.full_name ≠ fn))
    ∧ (∀ (st : CompState) (fn k : String), k ≠ fn →
       lookupAssoc (handleRemoveRepo st fn).dbtPaths k = lookupAssoc st.dbtPaths k
       ∧ lookupAssoc (handleRemoveRepo st fn).originalPaths k = lookupAssoc st.originalPaths k
       ∧ lookupAssoc (handleRemoveRepo st fn).pathValidation k = lookupAssoc st.pathValidation k)
    ∧ (∀ (st : CompState) (fn : String) (r : AnalyzeResult),
       r ∈ st.analyzeResults.getD [] → r.full_name ≠ fn →
       r ∈ (handleRemoveRepo st fn).analyzeResults.getD [])
    ∧ (∀ (st : CompState) (fn : String) (prev : List AnalyzeResult),
       st.analyzeResults = some prev →
       prev.filter (fun r => r.full_name != fn) = [] →
       (handleRemoveRepo st fn).analyzeResults = none)
    ∧ (∀ (st : CompState) (resp : HttpResp ReposResponseBody),
       respOk resp.status = true → resp.body.requires_selection = false →
       ∀ r ∈ (processReposResponse st resp).analyzeResults.getD [],
         r ∈ resp.body.repos.map repoToResult)
    ∧ (∀ (st : CompState) (resp : HttpResp AnalyzeResponseBody),
       respOk resp.status = true →
       ∀ r ∈ (processAnalyzeResponse st resp).analyzeResults.getD [],
         r ∈ resp.body.results) := by
  refine ⟨?_, ?_, ?_, ?_, ?_, ?_⟩
  · intro st fn
    refine ⟨lookupAssoc_erase_self _ _, lookupAssoc_erase_self _ _,
            lookupAssoc_erase_self _ _, ?_⟩
    intro r hr
    rcases hres : st.analyzeResults with _ | prev
    · simp [handleRemoveRepo, hres] at hr
    · simp only [handleRemoveRepo, hres] at hr
      by_cases hlen : (prev.filter (fun r => r.full_name != fn)).length > 0
      · simp only [hlen, if_pos] at hr
        have h2 : r ∈ prev ∧ ¬ r.full_name = fn := by simpa using hr
        exact h2.2
      · simp [hlen] at hr
  · intro st fn k hk
    exact ⟨lookupAssoc_erase_ne _ _ _ (Ne.symm hk),
           lookupAssoc_erase_ne _ _ _ (Ne.symm hk),
           lookupAssoc_erase_ne _ _ _ (Ne.symm hk)⟩
  · intro st fn r hr hne
    rcases hres : st.analyzeResults with _ | prev
    · simp [hres] at hr
    · simp only [hres, Option.getD_some] at hr
      have hmem : r ∈ prev.filter (fun r => r.full_name != fn) :=
        List.mem_filter.mpr ⟨hr, by simpa [bne_iff_ne] using hne⟩
      have hlen : (prev.filter (fun r => r.full_name != fn)).length > 0 :=
        List.length_pos.mpr (List.ne_nil_of_mem hmem)
      simp only [handleRemoveRepo, hres, hlen, if_pos, Option.getD_some]
      exact hmem
  · intro st fn prev h hfil
    simp [handleRemoveRepo, h, hfil]
  · intro st resp hok hrs r hr
    simpa [processReposResponse, hok, hrs] using hr
  · intro st resp hok r hr
    simpa [processAnalyzeResponse, hok] using hr

/-- Fixture state for C9: two analyzed repositories with full path state. -/
def c9St : CompState :=
  { initialState with
    user := some alice
    analyzeResults := some [resAX, resBY]
    dbtPaths := [("a/x", "p1"), ("b/y", "p2")]
    originalPaths := [("a/x", "o1"), ("b/y", "o2")]
    pathValidation := [("a/x", some true), ("b/y", some false)] }

/-- Fresh analyze response fixture for the C9 witness. -/
def c9Resp : HttpResp AnalyzeResponseBody :=
  { status := 200, body := { results := [resBY], detail := none } }

/-- Witness for C9 at the concrete fixtures: removing `a/x` clears its three
path entries, keeps the `b/y` entries and result, removing the last result
reverts to `none`, and a fresh analyze response only carries its own
results. -/
theorem c9_remove_repo_atomic_witness :
    (lookupAssoc (handleRemoveRepo c9St "a/x").dbtPaths "a/x" = none
      ∧ lookupAssoc (handleRemoveRepo c9St "a/x").originalPaths "a/x" = none
      ∧ lookupAssoc (handleRemoveRepo c9St "a/x").pathValidation "a/x" = none
      ∧ (∀ r ∈ ((handleRemoveRepo c9St "a/x").analyzeResults.getD []), r.full_name ≠ "a/x"))
    ∧ (lookupAssoc (handleRemoveRepo c9St "a/x").dbtPaths "b/y" = lookupAssoc c9St.dbtPaths "b/y"
      ∧ lookupAssoc (handleRemoveRepo c9St "a/x").originalPaths "b/y" = lookupAssoc c9St.originalPaths "b/y"
      ∧ lookupAssoc (handleRemoveRepo c9St "a/x").pathValidation "b/y" = lookupAssoc c9St.pathValidation "b/y")
    ∧ resBY ∈ (handleRemoveRepo c9St "a/x").analyzeResults.getD []
    ∧ (handleRemoveRepo c3St "a/x").analyzeResults = none
    ∧ (∀ r ∈ (processAnalyzeResponse c9St c9Resp).analyzeResults.getD [],
        r ∈ c9Resp.body.results) :=
  ⟨c9_remove_repo_atomic.1 c9St "a/x",
   c9_remove_repo_atomic.2.1 c9St "a/x" "b/y" (by decide),
   c9_remove_repo_atomic.2.2.1 c9St "a/x" resBY (by decide) (by decide),
   c9_remove_repo_atomic.2.2.2.1 c3St "a/x" [resAX] rfl (by decide),
   c9_remove_repo_atomic.2.2.2.2.2 c9St c9Resp (by decide)⟩

/-- `handlePathChange`: set the current path, reset validity to unknown
(`null`), clear any existing timer for this key and schedule validation of
the new path 500 time-units from now (the timer map entry records the firing
time and the path captured by the scheduled closure). -/
def handlePathChange (st : CompState) (now : Nat) (fullName newPath : String) : CompState :=
  { st with
    dbtPaths := insertAssoc st.dbtPaths fullName newPath
    pathValidation := insertAssoc st.pathValidation fullName none
    debounceTimers := insertAssoc st.debounceTimers fullName (now + 500, newPath) }

/-- Timer semantics for one key: at time `t` the pending timer for `key`
fires — issuing its `validateDbtPath(key, path)` call — when its scheduled
time has been reached and it has not been cleared earlier. -/
def fireDue (st : CompState) (key : String) (t : Nat) : CompState × List (Nat × String) :=
  match lookupAssoc st.debounceTimers key with
  | some sched =>
    if sched.1 ≤ t then
      ({ st with debounceTimers := eraseAssoc st.debounceTimers key }, [sched])
    else (st, [])
  | none => (st, [])

/-- One timed edit event for `key`: any timer due by the edit time fires
first, then the edit is handled. The second component accumulates the
`validateDbtPath` calls issued (firing time and validated path). -/
def stepEdit (key : String) (acc : CompState × List (Nat × String)) (e : Nat × String) :
    CompState × List (Nat × String) :=
  let fired := fireDue acc.1 key e.1
  (handlePathChange fired.1 e.1 key e.2, acc.2 ++ fired.2)

/-- After the last edit, time runs out and whatever timer is still pending
for the key fires. -/
def flushTimer (key : String) (r : CompState × List (Nat × String)) :
    CompState × List (Nat × String) :=
  match lookupAssoc r.1.debounceTimers key with
  | some sched =>
    ({ r.1 with debounceTimers := eraseAssoc r.1.debounceTimers key }, r.2 ++ [sched])
  | none => r

/-- Run a sequence of timed edits to one key, then let time run out. -/
def runEdits (key : String) (st0 : CompState) (edits : List (Nat × String)) :
    CompState × List (Nat × String) :=
  flushTimer key (edits.foldl (stepEdit key) (st0, []))

/-- Each subsequent edit is strictly later than, yet within 500 time-units
of, the previous one (the quiet-window hypothesis of the claim). -/
def withinWindow (prev : Nat) : List (Nat × String) → Bool
  | [] => true
  | e :: rest => (decide (prev < e.1) && decide (e.1 < prev + 500)) && withinWindow e.1 rest

theorem stepEdit_chain (key : String) (rest : List (Nat × String)) :
    ∀ (st : CompState) (fired : List (Nat × String)) (prev : Nat) (p : String),
      lookupAssoc st.debounceTimers key = some (prev + 500, p) →
      withinWindow prev rest = true →
      (rest.foldl (stepEdit key) (st, fired)).2 = fired
      ∧ lookupAssoc (rest.foldl (stepEdit key) (st, fired)).1.debounceTimers key
          = some ((rest.getLastD (prev, p)).1 + 500, (rest.getLastD (prev, p)).2) := by
  induction rest with
  | nil =>
    intro st fired prev p ht hw
    exact ⟨rfl, by simpa using ht⟩
  | cons e rest ih =>
    intro st fired prev p ht hw
    simp only [withinWindow, Bool.and_eq_true, decide_eq_true_eq] at hw
    obtain ⟨⟨h1, h2⟩, hw'⟩ := hw
    have hnofire : ¬ (prev + 500 ≤ e.1) := Nat.not_le.mpr h2
    have hstep : stepEdit key (st, fired) e = (handlePathChange st e.1 key e.2, fired) := by
      simp [stepEdit, fireDue, ht, hnofire]
    have htimer1 : lookupAssoc (handlePathChange st e.1 key e.2).debounceTimers key
        = some (e.1 + 500, e.2) := lookupAssoc_insert_self _ _ _
    have hrec := ih (handlePathChange st e.1 key e.2) fired e.1 e.2 htimer1 hw'
    simp only [List.foldl_cons, hstep, List.getLastD_cons]
    simpa using hrec

theorem stepEdit_sets_path (key : String) (edits : List (Nat × String)) :
    ∀ (e0 : Nat × String) (acc : CompState × List (Nat × String)),
      lookupAssoc ((e0 :: edits).foldl (stepEdit key) acc).1.dbtPaths key
          = some ((edits.getLastD e0).2)
      ∧ lookupAssoc ((e0 :: edits).foldl (stepEdit key) acc).1.pathValidation key
          = some none := by
  induction edits with
  | nil =>
    intro e0 acc
    constructor
    · simp [stepEdit, handlePathChange, lookupAssoc_insert_self]
    · simp [stepEdit, handlePathChange, lookupAssoc_insert_self]
  | cons e1 rest ih =>
    intro e0 acc
    have hrec := ih e1 (stepEdit key acc e0)
    simp only [List.foldl_cons, List.getLastD_cons]
    simpa [List.foldl_cons] using hrec

/-- C5: for a sequence of edits to one repository's path whose consecutive
gaps stay under 500 time-units (starting with no pending timer for the key),
exactly one `validateDbtPath` call fires, 500 time-units after the last edit
and with the last edited value; the final current path is the last edited
value and its validity is unknown (each edit set it so immediately); and
scheduling via `handlePathChange` always replaces any previously scheduled
timer for that key with the fresh one. -/
theorem c5_debounce_single_validation (key p0 : String) (t0 : Nat)
    (rest : List (Nat × String)) (st0 : CompState)
    (htimer : lookupAssoc st0.debounceTimers key = none)
    (hwin : withinWindow t0 rest = true) :
    (runEdits key st0 ((t0, p0) :: rest)).2
        = [((rest.getLastD (t0, p0)).1 + 500, (rest.getLastD (t0, p0)).2)]
    ∧ lookupAssoc (runEdits key st0 ((t0, p0) :: rest)).1.dbtPaths key
        = some ((rest.getLastD (t0, p0)).2)
    ∧ lookupAssoc (runEdits key st0 ((t0, p0) :: rest)).1.pathValidation key
        = some none
    ∧ (∀ (st : CompState) (t : Nat) (k pn : String),
        lookupAssoc (handlePathChange st t k pn).dbtPaths k = some pn
        ∧ lookupAssoc (handlePathChange st t k pn).pathValidation k = some none
        ∧ lookupAssoc (handlePathChange st t k pn).debounceTimers k = some (t + 500, pn)) := by
  have hstep0 : stepEdit key (st0, ([] : List (Nat × String))) (t0, p0)
      = (handlePathChange st0 t0 key p0, []) := by
    simp [stepEdit, fireDue, htimer]
  have htimer1 : lookupAssoc (handlePathChange st0 t0 key p0).debounceTimers key
      = some (t0 + 500, p0) := lookupAssoc_insert_self _ _ _
  have hchain := stepEdit_chain key rest (handlePathChange st0 t0 key p0) [] t0 p0 htimer1 hwin
  have hpath := stepEdit_sets_path key rest (t0, p0) (st0, [])
  have hfold : ((t0, p0) :: rest).foldl (stepEdit key) (st0, [])
      = rest.foldl (stepEdit key) (handlePathChange st0 t0 key p0, []) := by
    simp [List.foldl_cons, hstep0]
  refine ⟨?_, ?_, ?_, fun st t k pn =>
    ⟨lookupAssoc_insert_self _ _ _, lookupAssoc_insert_self _ _ _,
     lookupAssoc_insert_self _ _ _⟩⟩
  · simp [runEdits, hfold, flushTimer, hchain.2, hchain.1]
  · have : lookupAssoc (runEdits key st0 ((t0, p0) :: rest)).1.dbtPaths key
        = lookupAssoc (((t0, p0) :: rest).foldl (stepEdit key) (st0, [])).1.dbtPaths key := by
      simp only [runEdits, hfold, flushTimer, hchain.2]
    rw [this]
    exact hpath.1
  · have : lookupAssoc (runEdits key st0 ((t0, p0) :: rest)).1.pathValidation key
        = lookupAssoc (((t0, p0) :: rest).foldl (stepEdit key) (st0, [])).1.pathValidation key := by
      simp only [runEdits, hfold, flushTimer, hchain.2]
    rw [this]
    exact hpath.2

/-- Witness for C5 at concrete inputs: edits at times 0, 100, 400 (gaps below
500) produce exactly one validation call, at time 900 with the last value
`mod`; the current path is `mod` with unknown validity. -/
theorem c5_debounce_single_validation_witness :
    (runEdits "a/x" initialState ((0, "m") :: [(100, "mo"), (400, "mod")])).2
        = [(([(100, "mo"), (400, "mod")].getLastD (0, "m")).1 + 500,
            ([(100, "mo"), (400, "mod")].getLastD (0, "m")).2)]
    ∧ lookupAssoc (runEdits "a/x" initialState ((0, "m") :: [(100, "mo"), (400, "mod")])).1.dbtPaths "a/x"
        = some (([(100, "mo"), (400, "mod")].getLastD (0, "m")).2)
    ∧ lookupAssoc (runEdits "a/x" initialState ((0, "m") :: [(100, "mo"), (400, "mod")])).1.pathValidation "a/x"
        = some none
    ∧ (∀ (st : CompState) (t : Nat) (k pn : String),
        lookupAssoc (handlePathChange st t k pn).dbtPaths k = some pn
        ∧ lookupAssoc (handlePathChange st t k pn).pathValidation k = some none
        ∧ lookupAssoc (handlePathChange st t k pn).debounceTimers k = some (t + 500, pn)) :=
  c5_debounce_single_validation "a/x" "m" 0 [(100, "mo"), (400, "mod")] initialState rfl (by decide)

/-- The current navigation's query parameters as read by the mount effect. -/
structure NavParams where
  code : Option String
  state : Option String
  installation_id : Option String
  setup_action : Option String
deriving Repr, DecidableEq

/-- JS truthiness of `urlParams.get(...)`: present and non-empty. -/
def truthyStr : Option String → Bool
  | some s => !(s == "")
  | none => false

/-- The observable steps of one run of the mount effect, in program order. -/
inductive EffectAction where
  | setFlag
  | stripUrl
  | dispatchInstallation (installation_id : Nat) (setup_action : String)
  | dispatchOAuth (code : String) (state : Option String)
  | restoreSessionStart
deriving Repr, DecidableEq

/-- `parseInt` on the canonical decimal strings the provider redirects with. -/
def parseIntDec (s : String) : Nat := (s.toNat?).getD 0

/-- The visible URL after `window.history.replaceState(..., "/")`. -/
def clearedUrl : NavParams :=
  { code := none, state := none, installation_id := none, setup_action := none }

/-- Whether an effect action dispatches callback parameters to a handler. -/
def isDispatch : EffectAction → Bool
  | .dispatchInstallation _ _ => true
  | .dispatchOAuth _ _ => true
  | _ => false

/-- One run of the mount effect: early return when the one-shot
`processingRef` flag is already set (skipping even the session restore);
otherwise classify the URL parameters and, on a callback, set the flag,
strip the URL and dispatch — in that order — before any asynchronous work;
the session-restore block always starts last. Returns the new flag value,
the new visible URL, and the ordered action trace. -/
def runInitEffect (flag : Bool) (url : NavParams) : Bool × NavParams × List EffectAction :=
  if flag then (flag, url, [])
  else if truthyStr url.installation_id && truthyStr url.setup_action then
    (true, clearedUrl,
     [.setFlag, .stripUrl,
      .dispatchInstallation (parseIntDec (url.installation_id.getD "")) (url.setup_action.getD ""),
      .restoreSessionStart])
  else if truthyStr url.code then
    (true, clearedUrl,
     [.setFlag, .stripUrl, .dispatchOAuth (url.code.getD "") url.state, .restoreSessionStart])
  else (flag, url, [.restoreSessionStart])

/-- Iterated re-invocations of the mount effect for one navigation (e.g.
strict re-mounting), accumulating the traces. -/
def runInitEffectN : Nat → Bool → NavParams → Bool × NavParams × List EffectAction
  | 0, flag, url => (flag, url, [])
  | n + 1, flag, url =>
    let r := runInitEffect flag url
    let r2 := runInitEffectN n r.1 r.2.1
    (r2.1, r2.2.1, r.2.2 ++ r2.2.2)

theorem runInitEffectN_true_no_dispatch (n : Nat) :
    ∀ url : NavParams, ((runInitEffectN n true url).2.2.countP isDispatch) = 0 := by
  induction n with
  | zero => intro url; rfl
  | succ n ih =>
    intro url
    simp only [runInitEffectN, runInitEffect, if_pos]
    simpa using ih url

/-- C7: however many times the mount effect runs for one navigation, the
callback parameters are dispatched at most once; and each single run either
does nothing (flag already set), only starts the session restore (no callback
present), or performs exactly `setFlag`, `stripUrl`, one dispatch, then the
session restore — so the one-shot flag is checked before any dispatch and
set, and the URL stripped, before the handler is invoked. -/
theorem c7_callback_dispatched_once :
    (∀ (n : Nat) (url : NavParams),
      ((runInitEffectN n false url).2.2.countP isDispatch) ≤ 1)
    ∧ (∀ (flag : Bool) (url : NavParams),
        (runInitEffect flag url).2.2 = []
        ∨ (runInitEffect flag url).2.2 = [.restoreSessionStart]
        ∨ (∃ d, isDispatch d = true
            ∧ (runInitEffect flag url).2.2 = [.setFlag, .stripUrl, d, .restoreSessionStart]
            ∧ (runInitEffect flag url).1 = true
            ∧ (runInitEffect flag url).2.1 = clearedUrl)) := by
  constructor
  · intro n
    induction n with
    | zero => intro url; simp [runInitEffectN]
    | succ n ih =>
      intro url
      by_cases hI : (truthyStr url.installation_id && truthyStr url.setup_action) = true
      · simp [runInitEffectN, runInitEffect, hI, List.countP_append, isDispatch,
              runInitEffectN_true_no_dispatch n]
      · by_cases hC : truthyStr url.code = true
        · simp [runInitEffectN, runInitEffect, hI, hC, List.countP_append, isDispatch,
                runInitEffectN_true_no_dispatch n]
        · have hrec := ih url
          simp only [runInitEffectN, runInitEffect, hI, hC] at *
          simpa [List.countP_append, isDispatch] using hrec
  · intro flag url
    by_cases hf : flag = true
    · subst hf
      exact Or.inl (by simp [runInitEffect])
    · have hf0 : flag = false := by simpa using hf
      subst hf0
      by_cases hI : (truthyStr url.installation_id && truthyStr url.setup_action) = true
      · refine Or.inr (Or.inr ⟨.dispatchInstallation (parseIntDec (url.installation_id.getD ""))
          (url.setup_action.getD ""), rfl, ?_, ?_, ?_⟩) <;> simp [runInitEffect, hI]
      · by_cases hC : truthyStr url.code = true
        · refine Or.inr (Or.inr ⟨.dispatchOAuth (url.code.getD "") url.state,
            rfl, ?_, ?_, ?_⟩) <;> simp [runInitEffect, hI, hC]
        · exact Or.inr (Or.inl (by simp [runInitEffect, hI, hC]))

/-- A backend request the OAuth callback handler issues. -/
inductive NetRequest where
  | callbackExchange (code : String) (state : Option String) (installation_id : Option String)
  | reposFetch (user_id : String)
deriving Repr, DecidableEq

/-- Body of `GET /auth/github/callback` (success fields plus the `detail`
field an error body would carry). -/
structure CallbackResponseBody where
  success : Bool
  user : Option GitHubUser
  installation_id : Option Nat
  detail : Option String
deriving Repr, DecidableEq

/-- `handleOAuthCallback(code, state)`: build the exchange query from `code`,
a truthy `state` and the pending installation id, call the backend, and on a
successful exchange store the session, clear the transient keys and
auto-fetch repositories when an installation id is present. Returns the new
state, the new localStorage and the requests issued, in order. -/
def handleOAuthCallback (st : CompState) (ls : LocalStorage) (code : String)
    (state : Option String) (resp : HttpResp CallbackResponseBody)
    (reposResp : Option (HttpResp ReposResponseBody)) :
    CompState × LocalStorage × List NetRequest :=
  let st0 := { st with loading := true, error := none }
  let stateParam := if truthyStr state then state else none
  let instParam := if truthyStr ls.pending_installation_id then ls.pending_installation_id else none
  let req : NetRequest := .callbackExchange code stateParam instParam
  if respOk resp.status = false then
    ({ st0 with error := some (resp.body.detail.getD "Failed to authenticate"), loading := false },
     ls, [req])
  else
    match resp.body.user with
    | some u =>
      if resp.body.success then
        let st1 := { st0 with user := some u, installationId := resp.body.installation_id }
        let ls1 := { ls with
          github_user_data := some { user := u, installationId := resp.body.installation_id }
          oauth_state := none
          pending_installation_id := none }
        match resp.body.installation_id with
        | some _ =>
          match reposResp with
          | some rr =>
            if respOk rr.status then
              let st2 := { st1 with repos := rr.body.repos
                                    requiresSelection := rr.body.requires_selection }
              let st3 := if rr.body.requires_selection then st2
                else { st2 with analyzeResults := some (rr.body.repos.map repoToResult) }
              ({ st3 with loading := false }, ls1, [req, .reposFetch u.id])
            else ({ st1 with loading := false }, ls1, [req, .reposFetch u.id])
          | none => ({ st1 with loading := false }, ls1, [req, .reposFetch u.id])
        | none => ({ st1 with loading := false }, ls1, [req])
      else ({ st0 with loading := false }, ls, [req])
    | none => ({ st0 with loading := false }, ls, [req])

/-- localStorage fixture for C1: the anti-forgery token `s1` persisted by
`handleConnect`. -/
def c1Ls : LocalStorage :=
  { oauth_state := some "s1"
    pending_installation_id := none
    github_user_data := none
    github_analysis_data := none }

/-- Backend response fixture for C1: the backend accepts the exchange. -/
def c1Resp : HttpResp CallbackResponseBody :=
  { status := 200
    body := { success := true
              user := some alice
              installation_id := some 42
              detail := none } }

/-- C1 evaluated at the failing input: the persisted token is `s1`, the
callback carries the different explicit state `s2`, yet the handler still
issues the backend exchange (forwarding `s2`), authenticates the returned
user and reports no error — the persisted token is never read for
comparison, although it was stored "for verification". The claim requires
rejection with a user-visible error, no backend exchange, and a Disconnected
outcome. -/
theorem c1_state_mismatch_not_rejected :
    c1Ls.oauth_state = some "s1"
    ∧ some "s2" ≠ c1Ls.oauth_state
    ∧ (handleOAuthCallback initialState c1Ls "c1" (some "s2") c1Resp none).2.2
        = [.callbackExchange "c1" (some "s2") none, .reposFetch "1"]
    ∧ (handleOAuthCallback initialState c1Ls "c1" (some "s2") c1Resp none).1.user = some alice
    ∧ (handleOAuthCallback initialState c1Ls "c1" (some "s2") c1Resp none).1.error = none := by
  decide

/-- Outcome of the `POST /auth/restore` call inside `restoreSession`. -/
inductive RestoreOutcome where
  | threw
  | result (success : Bool) (message : Option String)
deriving Repr, DecidableEq

/-- Whether `pat` occurs at the start of the character list. -/
def startsWithPat : List Char → List Char → Bool
  | [], _ => true
  | _ :: _, [] => false
  | a :: as, b :: bs => (a == b) && startsWithPat as bs

/-- Whether `pat` occurs anywhere in the character list. -/
def hasSubPat (pat : List Char) : List Char → Bool
  | [] => startsWithPat pat []
  | c :: rest => startsWithPat pat (c :: rest) || hasSubPat pat rest

/-- `message.includes(pat)`: substring occurrence. -/
def strIncludes (s pat : String) : Bool := hasSubPat pat.data s.data

/-- The state after `setUser`/`setInstallationId` and hydration of any cached
analysis record — everything `restoreSession` does before the backend call. -/
def applyStoredSession (st : CompState) (d : StoredUserData)
    (a : Option StoredAnalysisData) : CompState :=
  let st1 := { st with user := some d.user, installationId := d.installationId }
  match a with
  | some stored => hydrateAnalysis st1 stored
  | none => st1

/-- `restoreSession`: nothing without a persisted session; hydrate the cached
analysis; with an installation id call the backend restore endpoint:
a success triggers a repository fetch exactly when no analysis was cached; a
failure whose message names the unusable installation token removes both
persisted records and clears user and installation id; any other failure
(or a thrown call) changes nothing further. Returns the new state, the new
localStorage, and whether a repository fetch was triggered. -/
def restoreSession (st : CompState) (ls : LocalStorage) (outcome : RestoreOutcome) :
    CompState × LocalStorage × Bool :=
  match ls.github_user_data with
  | none => (st, ls, false)
  | some d =>
    let st1 := applyStoredSession st d ls.github_analysis_data
    match d.installationId with
    | none => (st1, ls, false)
    | some _ =>
      match outcome with
      | .threw => (st1, ls, false)
      | .result true _ => (st1, ls, ls.github_analysis_data.isNone)
      | .result false msg =>
        if (match msg with
            | some m => strIncludes m "Failed to get installation token"
            | none => false) then
          ({ st1 with user := none, installationId := none },
           { ls with github_user_data := none, github_analysis_data := none }, false)
        else (st1, ls, false)

/-- localStorage fixture for C8: persisted session with installation id 42
and a cached analysis record for `a/x`. -/
def c8Ls : LocalStorage :=
  { oauth_state := none
    pending_installation_id := none
    github_user_data := some { user := alice, installationId := some 42 }
    github_analysis_data := some { analyzeResults := [resAX]
                                   dbtPaths := [("a/x", "models")]
                                   originalPaths := [("a/x", "")]
                                   pathValidation := [("a/x", some true)] } }

/-- The unusable-grant restore failure. -/
def c8Outcome : RestoreOutcome := .result false (some "Failed to get installation token")

/-- C8 counterexample: on the unusable-grant failure both persisted records
are removed and the user and installation id cleared, but the in-memory
analysis state hydrated from the cached record is NOT wiped —
`analyzeResults` stays populated, contradicting the claim that ALL local
session and analysis state is wiped. -/
theorem c8_wipe_incomplete_counterexample :
    (restoreSession initialState c8Ls c8Outcome).2.1.github_user_data = none
    ∧ (restoreSession initialState c8Ls c8Outcome).2.1.github_analysis_data = none
    ∧ (restoreSession initialState c8Ls c8Outcome).1.user = none
    ∧ (restoreSession initialState c8Ls c8Outcome).1.installationId = none
    ∧ (restoreSession initialState c8Ls c8Outcome).1.analyzeResults = some [resAX] := by
  decide

/-- C8 amended: with a persisted session carrying an installation id, exactly
one of three outcomes occurs. (a) Success: state is the hydrated one and a
repository fetch is triggered iff no analysis record was cached. (b) A
failure whose message names the unusable installation grant: both persisted
records are removed and the in-memory user and installation id cleared
(Disconnected), while analysis state hydrated from the cached record stays in
memory. (c) Any other failure, including a thrown call: state and storage
are left untouched beyond the hydration itself, and no fetch is triggered. -/
theorem c8_restore_trichotomy (st : CompState) (ls : LocalStorage) (d : StoredUserData)
    (hd : ls.github_user_data = some d) (hi : d.installationId.isSome) :
    (∀ msg, restoreSession st ls (.result true msg)
        = (applyStoredSession st d ls.github_analysis_data, ls, ls.github_analysis_data.isNone))
    ∧ (∀ msg, strIncludes msg "Failed to get installation token" = true →
        restoreSession st ls (.result false (some msg))
          = ({ applyStoredSession st d ls.github_analysis_data with
               user := none, installationId := none },
             { ls with github_user_data := none, github_analysis_data := none }, false))
    ∧ (∀ msg, strIncludes msg "Failed to get installation token" = false →
        restoreSession st ls (.result false (some msg))
          = (applyStoredSession st d ls.github_analysis_data, ls, false))
    ∧ restoreSession st ls .threw
        = (applyStoredSession st d ls.github_analysis_data, ls, false) := by
  obtain ⟨iid, hiid⟩ := Option.isSome_iff_exists.mp hi
  refine ⟨?_, ?_, ?_, ?_⟩
  · intro msg
    simp [restoreSession, hd, hiid]
  · intro msg h
    simp [restoreSession, hd, hiid, h]
  · intro msg h
    simp [restoreSession, hd, hiid, h]
  · simp [restoreSession, hd, hiid]

/-- Stored session fixture used to instantiate the C8 witness. -/
def c8Stored : StoredUserData := { user := alice, installationId := some 42 }

/-- Witness for the amended C8 at concrete inputs: one instance of each of
the three outcomes against the fixture storage. -/
theorem c8_restore_trichotomy_witness :
    (restoreSession initialState c8Ls (.result true none)
        = (applyStoredSession initialState c8Stored c8Ls.github_analysis_data, c8Ls,
           c8Ls.github_analysis_data.isNone))
    ∧ (restoreSession initialState c8Ls (.result false (some "Failed to get installation token"))
        = ({ applyStoredSession initialState c8Stored c8Ls.github_analysis_data with
             user := none, installationId := none },
           { c8Ls with github_user_data := none, github_analysis_data := none }, false))
    ∧ (restoreSession initialState c8Ls (.result false (some "Network hiccup"))
        = (applyStoredSession initialState c8Stored c8Ls.github_analysis_data, c8Ls, false))
    ∧ restoreSession initialState c8Ls .threw
        = (applyStoredSession initialState c8Stored c8Ls.github_analysis_data, c8Ls, false) :=
  ⟨(c8_restore_trichotomy initialState c8Ls c8Stored rfl (by decide)).1 none,
   (c8_restore_trichotomy initialState c8Ls c8Stored rfl (by decide)).2.1
     "Failed to get installation token" (by decide),
   (c8_restore_trichotomy initialState c8Ls c8Stored rfl (by decide)).2.2.1
     "Network hiccup" (by decide),
   (c8_restore_trichotomy initialState c8Ls c8Stored rfl (by decide)).2.2.2⟩
